import Mathlib

/-!
Shallow embedding of `nonebot_driver_socketio/socketio.py`: the connection
and session lifecycle core (HTTP handler, reverse-WebSocket handler, the
`WebSocket` transport wrapper, and the read loop), together with theorems
settling the specification claims about it.

Modelling conventions:
* JSON values are the inductive `Socketio.Json`; `json.loads` outcomes are
  `Except Unit Json` (`Except.error` models an uncaught decode exception).
* The adapter registry `self._adapters` is the list of registered adapter
  names; `BotClass.check_permission` outcomes are `Except RequestDenied String`
  (the `String` is the resolved `x_self_id`).
* The session registry `self._clients` (owned by the external base driver) is
  an association list from identity to a session tag; the handlers only test
  membership and emit `_bot_connect` / `_bot_disconnect` calls, which we record
  as a trace of `RegOp`s.
* `asyncio.create_task(bot.handle_message(…))` is fire-and-forget: the model
  records the scheduled payload in a list and nothing downstream feeds back
  into the handler, mirroring that the loop never awaits task completion.
* The underlying starlette websocket is an external collaborator; its
  per-call behaviour is an input (`RecvJson` for `receive_json`, `LoopEvent`
  for one loop iteration, `crash` modelling an exception escaping the body).
-/

namespace Socketio

/-- A JSON value, as far as the driver inspects it (`isinstance(x, dict)` and
Python truthiness are the only observations made). -/
inductive Json where
  | null
  | bool (b : Bool)
  | num (n : Int)
  | str (s : String)
  | arr (elems : List Json)
  | obj (fields : List (String × Json))

/-- `isinstance(v, dict)`. -/
def Json.isObj : Json → Bool
  | Json.obj _ => true
  | _ => false

/-- Python truthiness test `not v` (true when `v` is falsy): `None` is handled
one level up, in `Option`; here a dict is falsy exactly when it is empty. -/
def Json.pyFalsy : Json → Bool
  | Json.null => true
  | Json.bool b => !b
  | Json.num n => n == 0
  | Json.str s => s.isEmpty
  | Json.arr xs => xs.isEmpty
  | Json.obj fs => fs.isEmpty

/-- `nonebot.exception.RequestDenied`: carries the status code and reason the
identity resolver supplies on rejection. -/
structure RequestDenied where
  status_code : Nat
  reason : String

/-- The session registry `self._clients`: identity (`x_self_id`) to a session
tag standing for the registered bot object. -/
abbrev Registry := List (String × Nat)

/-- Membership test `x_self_id in self._clients`. -/
def Registry.hasId (reg : Registry) (selfId : String) : Bool :=
  reg.any (fun p => p.1 == selfId)

/-- Modelled from the spec: `register(identity, session)` of the session
registry (`_bot_connect` lives in the external nonebot base driver, not under
src). On conflict the existing entry is left untouched. -/
def Registry.register (reg : Registry) (selfId : String) (sess : Nat) : Registry :=
  if reg.hasId selfId then reg else (selfId, sess) :: reg

/-- Modelled from the spec: `unregister(identity)` of the session registry
(`_bot_disconnect` lives in the external nonebot base driver, not under src).
Removes the entry if present; no-op if absent. -/
def Registry.unregister (reg : Registry) (selfId : String) : Registry :=
  reg.filter (fun p => !(p.1 == selfId))

/-- A registry call emitted by a handler: `_bot_connect` / `_bot_disconnect`. -/
inductive RegOp where
  | connect (selfId : String) (sess : Nat)
  | disconnect (selfId : String)

/-- Replay a trace of registry calls against a registry. -/
def applyOps (reg : Registry) : List RegOp → Registry
  | [] => reg
  | RegOp.connect s n :: rest => applyOps (reg.register s n) rest
  | RegOp.disconnect s :: rest => applyOps (reg.unregister s) rest

/-- The `WebSocket` transport wrapper: its only own state is `self._closed`. -/
structure WebSocket where
  _closed : Bool

/-- The `closed` property. -/
def WebSocket.closed (ws : WebSocket) : Bool := ws._closed

/-- `WebSocket.__init__`: sets `self._closed = False` before any handshake. -/
def WebSocket.init : WebSocket := { _closed := false }

/-- `accept()`: accepts the underlying handshake and sets `self._closed = False`. -/
def WebSocket.accept (ws : WebSocket) : WebSocket := { ws with _closed := false }

/-- The slice of the underlying starlette websocket the close path observes:
whether the application side has already sent a close message. -/
structure StarletteWs where
  closeSent : Bool

/-- The underlying starlette `websocket.close(code)`: sends a
`websocket.close` message, but starlette's `send` raises
RuntimeError (a close message was already sent) once the application state is
DISCONNECTED. `Except.error` models that raised RuntimeError. -/
def starletteClose (st : StarletteWs) (code : Nat) : Except Unit (StarletteWs × Nat) :=
  if st.closeSent then Except.error ()
  else Except.ok ({ closeSent := true }, code)

/-- `close(code)`: awaits `self.websocket.close(code=code)` and only then sets
`self._closed = True`. The method body has no guard on `self._closed`, so when
the underlying close raises (a close message was already sent) the exception
propagates and the assignment is not reached. On success the new wrapper and
underlying states and the emitted close code are returned. -/
def WebSocket.close (ws : WebSocket) (st : StarletteWs) (code : Nat) :
    Except Unit (WebSocket × StarletteWs × Nat) :=
  match starletteClose st code with
  | Except.error e => Except.error e
  | Except.ok p => Except.ok ({ ws with _closed := true }, p.1, p.2)

/-- Outcome of one underlying `websocket.receive_json()` call:
a decoded value, a raised `ValueError` (invalid JSON text), or a raised
`WebSocketDisconnect`. -/
inductive RecvJson where
  | ok (v : Json)
  | invalidJson
  | disconnect

/-- `WebSocket.receive()`: returns the next payload or `None`; a non-dict or
undecodable frame yields `None` with the state untouched, a peer disconnect
yields `None` and sets `self._closed = True`. -/
def WebSocket.receive (ws : WebSocket) (r : RecvJson) : Option Json × WebSocket :=
  match r with
  | RecvJson.ok v => if v.isObj then (some v, ws) else (none, ws)
  | RecvJson.invalidJson => (none, ws)
  | RecvJson.disconnect => (none, { ws with _closed := true })

/-- What `_handle_http` does to the transport: an exception that the handler
does not catch (the `json.loads` decode error), a raised `HTTPException`, or a
returned `Response(body, status)`. -/
inductive HttpOutcome where
  | uncaughtError
  | httpException (status_code : Nat) (detail : Option String)
  | response (body : String) (status_code : Nat)

/-- Observable effects of one `_handle_http` invocation. -/
structure HttpResult where
  outcome : HttpOutcome
  dispatched : Option Json
  conflictWarned : Bool
  clientsAfter : Registry

/-- `Driver._handle_http`: body decode, dict check (400), adapter lookup (404),
permission check (forwarded status/reason), conflict warning, fire-and-forget
dispatch, `Response("", 204)`. The handler never mutates `self._clients`. -/
def _handle_http (adapters : List String) (reg : Registry) (adapter : String)
    (parsed : Except Unit Json) (perm : Except RequestDenied String) : HttpResult :=
  match parsed with
  | Except.error _ =>
      { outcome := HttpOutcome.uncaughtError, dispatched := none,
        conflictWarned := false, clientsAfter := reg }
  | Except.ok data_dict =>
      if data_dict.isObj = false then
        { outcome := HttpOutcome.httpException 400 none, dispatched := none,
          conflictWarned := false, clientsAfter := reg }
      else if adapters.contains adapter = false then
        { outcome := HttpOutcome.httpException 404 (some "adapter not found"),
          dispatched := none, conflictWarned := false, clientsAfter := reg }
      else
        match perm with
        | Except.error e =>
            { outcome := HttpOutcome.httpException e.status_code (some e.reason),
              dispatched := none, conflictWarned := false, clientsAfter := reg }
        | Except.ok x_self_id =>
            { outcome := HttpOutcome.response "" 204, dispatched := some data_dict,
              conflictWarned := reg.hasId x_self_id, clientsAfter := reg }

/-- One iteration of the reverse-WebSocket read loop as seen from outside:
either `ws.receive()` resolves with an underlying outcome, or an exception
escapes the loop body (cancellation, an unexpected runtime error). -/
inductive LoopEvent where
  | recv (r : RecvJson)
  | crash

/-- The read loop of `_handle_ws_reverse`:
`while not ws.closed: data = await ws.receive(); if not data: continue;
asyncio.create_task(bot.handle_message(data))`. Returns the payloads handed to
`asyncio.create_task` in order, the final transport state, and whether an
exception escaped the loop. The recursion never consults any dispatched task's
outcome: the loop proceeds to the next frame unconditionally. -/
def wsLoop : WebSocket → List LoopEvent → List Json × WebSocket × Bool
  | ws, [] => ([], ws, false)
  | ws, e :: rest =>
      if ws.closed then ([], ws, false)
      else
        match e with
        | LoopEvent.crash => ([], ws, true)
        | LoopEvent.recv r =>
            let p := WebSocket.receive ws r
            match p.1 with
            | none => wsLoop p.2 rest
            | some d =>
                if d.pyFalsy then wsLoop p.2 rest
                else
                  let t := wsLoop p.2 rest
                  (d :: t.1, t.2)

/-- The close code a refusal branch of the handler emits: the code carried by
a successful `close` call, nothing when the underlying send raised. -/
def closeCodeOf : Except Unit (WebSocket × StarletteWs × Nat) → Option Nat
  | Except.ok p => some p.2.2
  | Except.error _ => none

/-- Observable effects of one `_handle_ws_reverse` invocation. -/
structure WsResult where
  preCloseCode : Option Nat
  accepted : Bool
  ops : List RegOp
  dispatched : List Json
  crashed : Bool
  regAfter : Registry

/-- `Driver._handle_ws_reverse`: adapter lookup (close 1008), permission check
(close 1008 on `RequestDenied`, its payload discarded), duplicate-identity
check (close 1008), then `accept`, `_bot_connect`, the read loop, and
`_bot_disconnect` in a `finally` block. `preCloseCode` is the code of the
close issued before `accept` when the attempt is refused; each such close is
the first close on the fresh connection (no close message sent yet), so the
underlying send succeeds. -/
def _handle_ws_reverse (adapters : List String) (reg : Registry) (adapter : String)
    (perm : Except RequestDenied String) (sess : Nat)
    (events : List LoopEvent) : WsResult :=
  let ws := WebSocket.init
  if adapters.contains adapter = false then
    { preCloseCode := closeCodeOf (ws.close { closeSent := false } 1008),
      accepted := false, ops := [],
      dispatched := [], crashed := false, regAfter := applyOps reg [] }
  else
    match perm with
    | Except.error _ =>
        { preCloseCode := closeCodeOf (ws.close { closeSent := false } 1008),
          accepted := false, ops := [],
          dispatched := [], crashed := false, regAfter := applyOps reg [] }
    | Except.ok x_self_id =>
        if reg.hasId x_self_id then
          { preCloseCode := closeCodeOf (ws.close { closeSent := false } 1008),
            accepted := false, ops := [],
            dispatched := [], crashed := false, regAfter := applyOps reg [] }
        else
          let ws2 := ws.accept
          let ops := [RegOp.connect x_self_id sess, RegOp.disconnect x_self_id]
          let t := wsLoop ws2 events
          { preCloseCode := none, accepted := true, ops := ops,
            dispatched := t.1, crashed := t.2.2, regAfter := applyOps reg ops }

/-- Helper: `_handle_http` never mutates the session registry, whatever the
body, adapter or permission outcome (there is no `_bot_connect` on the HTTP
path). -/
theorem http_clients_unchanged (adapters : List String) (reg : Registry)
    (adapter : String) (parsed : Except Unit Json)
    (perm : Except RequestDenied String) :
    (_handle_http adapters reg adapter parsed perm).clientsAfter = reg := by
  unfold _handle_http
  rcases parsed with u | v
  · rfl
  · dsimp only
    split
    · rfl
    · split
      · rfl
      · rcases perm with e | s <;> rfl

/-- C10: a freshly constructed `WebSocket` wrapper (`__init__` sets
`self._closed = False`) reports itself open before `accept()` was ever
called. -/
theorem c10_fresh_transport_reports_open :
    WebSocket.init.closed = false := rfl

/-- C4: evaluation of the code at the failing input. The first `close()` on a
fresh transport succeeds and leaves the wrapper state closed with the close
message sent; calling `close()` again on the resulting states makes the
underlying starlette send raise RuntimeError (modelled as `Except.error`), so
the second call does not return without error — the claim's (and the spec's)
idempotent close is not what the code does. -/
theorem c4_second_close_raises :
    WebSocket.close WebSocket.init { closeSent := false } 1000
        = Except.ok ({ _closed := true }, { closeSent := true }, 1000) ∧
    WebSocket.close { _closed := true } { closeSent := true } 1000
        = Except.error () :=
  ⟨rfl, rfl⟩

/-- C9: `receive()` returns `None` with the state untouched when the frame is
not a JSON object or fails to decode, returns `None` and flips the state to
closed when the peer disconnected, and otherwise returns the payload object
with the state untouched. -/
theorem c9_receive_contract (ws : WebSocket) (v : Json) :
    (v.isObj = false → ws.receive (RecvJson.ok v) = (none, ws)) ∧
    (ws.receive RecvJson.invalidJson = (none, ws)) ∧
    (ws.receive RecvJson.disconnect = (none, { ws with _closed := true })) ∧
    (v.isObj = true → ws.receive (RecvJson.ok v) = (some v, ws)) := by
  refine ⟨fun h => ?_, rfl, rfl, fun h => ?_⟩ <;>
    simp [WebSocket.receive, h]

/-- Witness for C9 at a concrete transport and frames. -/
theorem c9_witness :
    WebSocket.receive { _closed := false } (RecvJson.ok (Json.num 1))
        = (none, { _closed := false }) ∧
    WebSocket.receive { _closed := false } (RecvJson.ok (Json.obj []))
        = (some (Json.obj []), { _closed := false }) ∧
    WebSocket.receive { _closed := false } RecvJson.disconnect
        = (none, { _closed := true }) :=
  ⟨(c9_receive_contract { _closed := false } (Json.num 1)).1 rfl,
   (c9_receive_contract { _closed := false } (Json.obj [])).2.2.2 rfl,
   (c9_receive_contract { _closed := false } (Json.obj [])).2.2.1⟩

/-- C5: a WebSocket connection attempt whose resolved identity is already
registered is closed with close code 1008 before being accepted or
registered; no registry call is made and the registry still maps the identity
to the first session. -/
theorem c5_ws_duplicate_identity (adapters : List String) (reg : Registry)
    (adapter selfId : String) (sess : Nat) (events : List LoopEvent)
    (hA : adapters.contains adapter = true) (hC : reg.hasId selfId = true) :
    (_handle_ws_reverse adapters reg adapter (Except.ok selfId) sess events).preCloseCode
        = some 1008 ∧
    (_handle_ws_reverse adapters reg adapter (Except.ok selfId) sess events).accepted
        = false ∧
    (_handle_ws_reverse adapters reg adapter (Except.ok selfId) sess events).ops = [] ∧
    (_handle_ws_reverse adapters reg adapter (Except.ok selfId) sess events).regAfter
        = reg := by
  have hA2 : adapter ∈ adapters := by simpa using hA
  simp [_handle_ws_reverse, hA2, hC, applyOps, closeCodeOf, WebSocket.close,
    starletteClose]

/-- Witness for C5: duplicate identity `"b"` already registered as session 7. -/
theorem c5_witness :
    (_handle_ws_reverse ["a"] [("b", 7)] "a" (Except.ok "b") 8 []).preCloseCode
        = some 1008 ∧
    (_handle_ws_reverse ["a"] [("b", 7)] "a" (Except.ok "b") 8 []).accepted = false ∧
    (_handle_ws_reverse ["a"] [("b", 7)] "a" (Except.ok "b") 8 []).ops = [] ∧
    (_handle_ws_reverse ["a"] [("b", 7)] "a" (Except.ok "b") 8 []).regAfter
        = [("b", 7)] :=
  c5_ws_duplicate_identity ["a"] [("b", 7)] "a" "b" 8 [] rfl rfl

/-- C8: once the WebSocket handler registers a session (known adapter,
permission granted, no identity conflict), the emitted registry trace is
exactly one `_bot_connect` followed by exactly one `_bot_disconnect`, for
every possible run of the read loop — including runs where an exception
escapes the loop, since the unregistration sits in a `finally` block. -/
theorem c8_cleanup_exactly_once (adapters : List String) (reg : Registry)
    (adapter selfId : String) (sess : Nat) (events : List LoopEvent)
    (hA : adapters.contains adapter = true) (hC : reg.hasId selfId = false) :
    (_handle_ws_reverse adapters reg adapter (Except.ok selfId) sess events).ops
        = [RegOp.connect selfId sess, RegOp.disconnect selfId] := by
  have hA2 : adapter ∈ adapters := by simpa using hA
  simp [_handle_ws_reverse, hA2, hC]

/-- Witness for C8 on a run where an exception escapes the read loop. -/
theorem c8_witness :
    (_handle_ws_reverse ["a"] [] "a" (Except.ok "b") 5 [LoopEvent.crash]).ops
        = [RegOp.connect "b" 5, RegOp.disconnect "b"] :=
  c8_cleanup_exactly_once ["a"] [] "a" "b" 5 [LoopEvent.crash] rfl rfl

/-- C7: two well-formed, authenticated HTTP POSTs resolving to the same
identity both get `Response("", 204)`; the second logs a conflict warning
whenever the identity is registered; neither request overwrites or removes
any registry entry. -/
theorem c7_http_duplicate_identity (adapters : List String) (reg : Registry)
    (adapter selfId : String) (v : Json)
    (hA : adapters.contains adapter = true) (hV : v.isObj = true) :
    (_handle_http adapters reg adapter (Except.ok v) (Except.ok selfId)).outcome
        = HttpOutcome.response "" 204 ∧
    (_handle_http adapters
        (_handle_http adapters reg adapter (Except.ok v) (Except.ok selfId)).clientsAfter
        adapter (Except.ok v) (Except.ok selfId)).outcome
        = HttpOutcome.response "" 204 ∧
    (_handle_http adapters reg adapter (Except.ok v) (Except.ok selfId)).clientsAfter
        = reg ∧
    (_handle_http adapters
        (_handle_http adapters reg adapter (Except.ok v) (Except.ok selfId)).clientsAfter
        adapter (Except.ok v) (Except.ok selfId)).clientsAfter = reg ∧
    (reg.hasId selfId = true →
      (_handle_http adapters
          (_handle_http adapters reg adapter (Except.ok v) (Except.ok selfId)).clientsAfter
          adapter (Except.ok v) (Except.ok selfId)).conflictWarned = true) := by
  have hA2 : adapter ∈ adapters := by simpa using hA
  have h1 := http_clients_unchanged adapters reg adapter (Except.ok v) (Except.ok selfId)
  refine ⟨?_, ?_, h1, ?_, ?_⟩
  · simp [_handle_http, hA2, hV]
  · rw [h1]; simp [_handle_http, hA2, hV]
  · rw [h1]; exact http_clients_unchanged adapters reg adapter (Except.ok v) (Except.ok selfId)
  · intro hW
    rw [h1]
    simp [_handle_http, hA2, hV, hW]

/-- Witness for C7: identity `"b"` already registered as session 3; both
requests answer 204, the registry is untouched, the second warns. -/
theorem c7_witness :
    (_handle_http ["a"] [("b", 3)] "a" (Except.ok (Json.obj []))
        (Except.ok "b")).outcome = HttpOutcome.response "" 204 ∧
    (_handle_http ["a"] [("b", 3)] "a" (Except.ok (Json.obj []))
        (Except.ok "b")).clientsAfter = [("b", 3)] ∧
    (_handle_http ["a"]
        (_handle_http ["a"] [("b", 3)] "a" (Except.ok (Json.obj []))
            (Except.ok "b")).clientsAfter
        "a" (Except.ok (Json.obj [])) (Except.ok "b")).conflictWarned = true := by
  have h := c7_http_duplicate_identity ["a"] [("b", 3)] "a" "b" (Json.obj []) rfl rfl
  exact ⟨h.1, h.2.2.1, h.2.2.2.2 rfl⟩

/-- Counterexample to C1 as stated: an HTTP POST whose body is invalid JSON
does not get a 400 response — the `json.loads` decode error is not caught, so
the handler aborts with an uncaught exception (no dispatch either way). -/
theorem c1_counterexample :
    (_handle_http ["a"] [] "a" (Except.error ()) (Except.ok "b")).outcome
        = HttpOutcome.uncaughtError ∧
    (_handle_http ["a"] [] "a" (Except.error ()) (Except.ok "b")).outcome
        ≠ HttpOutcome.httpException 400 none ∧
    (_handle_http ["a"] [] "a" (Except.error ()) (Except.ok "b")).dispatched
        = none := by
  refine ⟨rfl, ?_, rfl⟩
  intro h
  simp [_handle_http] at h

/-- C1 (amended): a body that is valid JSON but not an object gets a 400
response with no dispatch; a body that is invalid JSON makes the handler
raise the decode error uncaught (no 400 response and no dispatch). In neither
case is any payload handed to the dispatch core. -/
theorem c1_amended_malformed_body (adapters : List String) (reg : Registry)
    (adapter : String) (v : Json) (perm : Except RequestDenied String) :
    ((_handle_http adapters reg adapter (Except.error ()) perm).outcome
        = HttpOutcome.uncaughtError ∧
     (_handle_http adapters reg adapter (Except.error ()) perm).dispatched = none) ∧
    (v.isObj = false →
      (_handle_http adapters reg adapter (Except.ok v) perm).outcome
          = HttpOutcome.httpException 400 none ∧
      (_handle_http adapters reg adapter (Except.ok v) perm).dispatched = none) := by
  refine ⟨⟨rfl, rfl⟩, fun h => ?_⟩
  constructor <;> simp [_handle_http, h]

/-- Witness for C1 (amended) at concrete malformed bodies. -/
theorem c1_witness :
    (_handle_http ["a"] [] "a" (Except.error ()) (Except.ok "b")).dispatched
        = none ∧
    (_handle_http ["a"] [] "a" (Except.ok (Json.num 3)) (Except.ok "b")).outcome
        = HttpOutcome.httpException 400 none :=
  ⟨(c1_amended_malformed_body ["a"] [] "a" (Json.num 3) (Except.ok "b")).1.2,
   ((c1_amended_malformed_body ["a"] [] "a" (Json.num 3) (Except.ok "b")).2 rfl).1⟩

/-- Counterexample to C2 as stated: a WebSocket connection attempt the
resolver rejects with status 403 is closed with close code 1008, not 403 —
the handler discards the status the resolver supplied. -/
theorem c2_counterexample :
    (_handle_ws_reverse ["a"] [] "a"
        (Except.error { status_code := 403, reason := "forbidden" }) 0 []).preCloseCode
        = some 1008 ∧
    (_handle_ws_reverse ["a"] [] "a"
        (Except.error { status_code := 403, reason := "forbidden" }) 0 []).preCloseCode
        ≠ some 403 := by
  refine ⟨rfl, ?_⟩
  intro h
  simp [_handle_ws_reverse, closeCodeOf, WebSocket.close, starletteClose] at h

/-- C2 (amended): on a resolver rejection the HTTP handler responds with
exactly the status and reason the resolver supplied, while the WebSocket
handler always closes with the fixed policy-violation code 1008, discarding
the supplied status; in both paths this happens with no dispatch and before
any registry mutation. -/
theorem c2_amended_rejection_forwarding (adapters : List String) (reg : Registry)
    (adapter : String) (e : RequestDenied) (v : Json) (sess : Nat)
    (events : List LoopEvent) :
    (v.isObj = true → adapters.contains adapter = true →
      (_handle_http adapters reg adapter (Except.ok v) (Except.error e)).outcome
          = HttpOutcome.httpException e.status_code (some e.reason) ∧
      (_handle_http adapters reg adapter (Except.ok v) (Except.error e)).dispatched
          = none ∧
      (_handle_http adapters reg adapter (Except.ok v) (Except.error e)).clientsAfter
          = reg) ∧
    ((_handle_ws_reverse adapters reg adapter (Except.error e) sess events).preCloseCode
        = some 1008 ∧
     (_handle_ws_reverse adapters reg adapter (Except.error e) sess events).accepted
        = false ∧
     (_handle_ws_reverse adapters reg adapter (Except.error e) sess events).ops = [] ∧
     (_handle_ws_reverse adapters reg adapter (Except.error e) sess events).regAfter
        = reg) := by
  constructor
  · intro hV hA
    have hA2 : adapter ∈ adapters := by simpa using hA
    refine ⟨?_, ?_, ?_⟩ <;> simp [_handle_http, hA2, hV]
  · refine ⟨?_, ?_, ?_, ?_⟩ <;>
      simp [_handle_ws_reverse, closeCodeOf, WebSocket.close, starletteClose,
        applyOps]

/-- Witness for C2 (amended): rejection with status 418 and reason `"no"`. -/
theorem c2_witness :
    (_handle_http ["a"] [] "a" (Except.ok (Json.obj []))
        (Except.error { status_code := 418, reason := "no" })).outcome
        = HttpOutcome.httpException 418 (some "no") ∧
    (_handle_ws_reverse ["a"] [] "a"
        (Except.error { status_code := 418, reason := "no" }) 0 []).preCloseCode
        = some 1008 :=
  ⟨((c2_amended_rejection_forwarding ["a"] [] "a"
      { status_code := 418, reason := "no" } (Json.obj []) 0 []).1 rfl rfl).1,
   (c2_amended_rejection_forwarding ["a"] [] "a"
      { status_code := 418, reason := "no" } (Json.obj []) 0 []).2.1⟩

/-- Counterexample to C3 as stated: on an open transport, `receive()` returns
the empty JSON object — a value that is not `None` — yet the read loop
schedules no dispatch for it, because `if not data` also skips an empty dict
by Python falsiness. -/
theorem c3_counterexample :
    (WebSocket.receive { _closed := false } (RecvJson.ok (Json.obj []))).1
        = some (Json.obj []) ∧
    (wsLoop { _closed := false }
        [LoopEvent.recv (RecvJson.ok (Json.obj []))]).1 = [] :=
  ⟨rfl, rfl⟩

/-- C3 (amended): in the read loop on an open transport, every payload
returned by `receive()` that is truthy (a non-empty object) is handed to
`asyncio.create_task` and the loop immediately proceeds to the remaining
events from the same transport state, independent of any dispatched task's
outcome; a returned empty object and `None` results (non-object or
undecodable frames) are skipped without ending the loop; a peer disconnect
makes `receive()` close the transport, which ends the loop via its condition
with nothing further dispatched. -/
theorem c3_amended_loop_dispatch (ws : WebSocket) (v : Json)
    (rest : List LoopEvent) (hO : ws.closed = false) :
    (v.isObj = true → v.pyFalsy = false →
      wsLoop ws (LoopEvent.recv (RecvJson.ok v) :: rest)
        = (v :: (wsLoop ws rest).1, (wsLoop ws rest).2)) ∧
    (v.isObj = true → v.pyFalsy = true →
      wsLoop ws (LoopEvent.recv (RecvJson.ok v) :: rest) = wsLoop ws rest) ∧
    (v.isObj = false →
      wsLoop ws (LoopEvent.recv (RecvJson.ok v) :: rest) = wsLoop ws rest) ∧
    (wsLoop ws (LoopEvent.recv RecvJson.invalidJson :: rest) = wsLoop ws rest) ∧
    (wsLoop ws (LoopEvent.recv RecvJson.disconnect :: rest)
        = ([], { ws with _closed := true }, false)) := by
  refine ⟨fun hV hF => ?_, fun hV hF => ?_, fun hV => ?_, ?_, ?_⟩
  · simp [wsLoop, WebSocket.receive, hO, hV, hF]
  · simp [wsLoop, WebSocket.receive, hO, hV, hF]
  · simp [wsLoop, WebSocket.receive, hO, hV]
  · simp [wsLoop, WebSocket.receive, hO]
  · have hO2 : ws._closed = false := hO
    cases rest with
    | nil => simp [wsLoop, WebSocket.receive, WebSocket.closed, hO2]
    | cons e rest2 => simp [wsLoop, WebSocket.receive, WebSocket.closed, hO2]

/-- Witness for C3 (amended) at a concrete open transport: a non-empty object
is dispatched and the loop goes on; a non-object frame is skipped. -/
theorem c3_witness :
    wsLoop { _closed := false }
        [LoopEvent.recv (RecvJson.ok (Json.obj [("k", Json.num 1)]))]
        = (Json.obj [("k", Json.num 1)]
            :: (wsLoop { _closed := false } []).1,
           (wsLoop { _closed := false } []).2) ∧
    wsLoop { _closed := false } [LoopEvent.recv (RecvJson.ok (Json.num 2))]
        = wsLoop { _closed := false } [] :=
  ⟨(c3_amended_loop_dispatch { _closed := false }
      (Json.obj [("k", Json.num 1)]) [] rfl).1 rfl rfl,
   (c3_amended_loop_dispatch { _closed := false }
      (Json.num 2) [] rfl).2.2.1 rfl⟩

/-- Counterexample to C6 as stated: a request naming an adapter absent from
the (empty) adapter registry whose body is valid JSON but not an object is
answered 400, not 404 — the body check precedes the adapter lookup. -/
theorem c6_counterexample :
    (_handle_http [] [] "a" (Except.ok (Json.num 1)) (Except.ok "b")).outcome
        = HttpOutcome.httpException 400 none ∧
    (_handle_http [] [] "a" (Except.ok (Json.num 1)) (Except.ok "b")).outcome
        ≠ HttpOutcome.httpException 404 (some "adapter not found") := by
  refine ⟨rfl, ?_⟩
  intro h
  simp [_handle_http, Json.isObj] at h

/-- C6 (amended): an HTTP request whose body parses to a JSON object and
which names an unknown adapter is answered 404 with detail
`"adapter not found"` and nothing dispatched; a WebSocket attempt naming an
unknown adapter is closed with 1008 before being accepted; and in all cases
— any body, any adapter — neither handler registers a session (the HTTP path
never mutates the registry, and the refused WebSocket path emits no registry
call). -/
theorem c6_amended_unknown_adapter (adapters : List String) (reg : Registry)
    (adapter : String) (v : Json) (parsed : Except Unit Json)
    (perm : Except RequestDenied String) (sess : Nat)
    (events : List LoopEvent) :
    (v.isObj = true → adapters.contains adapter = false →
      (_handle_http adapters reg adapter (Except.ok v) perm).outcome
          = HttpOutcome.httpException 404 (some "adapter not found") ∧
      (_handle_http adapters reg adapter (Except.ok v) perm).dispatched = none) ∧
    ((_handle_http adapters reg adapter parsed perm).clientsAfter = reg) ∧
    (adapters.contains adapter = false →
      (_handle_ws_reverse adapters reg adapter perm sess events).preCloseCode
          = some 1008 ∧
      (_handle_ws_reverse adapters reg adapter perm sess events).accepted = false ∧
      (_handle_ws_reverse adapters reg adapter perm sess events).ops = [] ∧
      (_handle_ws_reverse adapters reg adapter perm sess events).regAfter = reg) := by
  refine ⟨fun hV hA => ?_, http_clients_unchanged adapters reg adapter parsed perm,
    fun hA => ?_⟩
  · have hA2 : adapter ∉ adapters := by simpa using hA
    constructor <;> simp [_handle_http, hA2, hV]
  · have hA2 : adapter ∉ adapters := by simpa using hA
    refine ⟨?_, ?_, ?_, ?_⟩ <;>
      simp [_handle_ws_reverse, hA2, closeCodeOf, WebSocket.close,
        starletteClose, applyOps]

/-- Witness for C6 (amended): adapter `"x"` against an empty adapter
registry. -/
theorem c6_witness :
    (_handle_http [] [("b", 1)] "x" (Except.ok (Json.obj []))
        (Except.ok "b")).outcome
        = HttpOutcome.httpException 404 (some "adapter not found") ∧
    (_handle_ws_reverse [] [("b", 1)] "x" (Except.ok "b") 2 []).preCloseCode
        = some 1008 ∧
    (_handle_ws_reverse [] [("b", 1)] "x" (Except.ok "b") 2 []).regAfter
        = [("b", 1)] := by
  have h := c6_amended_unknown_adapter [] [("b", 1)] "x" (Json.obj [])
    (Except.ok (Json.obj [])) (Except.ok "b") 2 []
  exact ⟨(h.1 rfl rfl).1, (h.2.2 rfl).1, (h.2.2 rfl).2.2.2⟩

end Socketio
